import Mathlib

/-!
# Verification of the SOCKS5 client handshake (`socks.go`)

Shallow embedding of the single-file Go package `socks`, which implements the
client side of the SOCKS5 CONNECT handshake (`DialSocks5Timeout`), together
with proofs of the specification's claims.

The transport connection is modelled as an explicit state (`Conn`): the bytes
the proxy will send (`input`), the bytes the driver has written so far
(`written`), and the absolute deadline currently set on the connection.
The external world's behaviour (whether the dial, deadline-set and writes
succeed, and how long the dial takes) is a parameter record `Net`.
Machine bytes are `Nat` with explicit `% 256` where Go truncates.
-/

set_option autoImplicit false

namespace Socks

/-- Constants from `socks.go` lines 16-22. -/
def Socks5Connect : Nat := 0x01

def Socks5IPv4Addr : Nat := 0x01

def Socks5DomainName : Nat := 0x03

def Socks5IPv6Addr : Nat := 0x04

def Socks5NoAuthentication : Nat := 0x00

def Socks5RequestGranted : Nat := 0x00

def Socks5Version : Nat := 0x05

/-- UTF-8 encoding of one character, as Go's `[]byte(string)` produces
(Go source text is UTF-8, so the byte conversion of a host string is its
UTF-8 encoding). -/
def charBytes (c : Char) : List Nat :=
  let n := c.toNat
  if n < 0x80 then [n]
  else if n < 0x800 then
    [0xC0 ||| (n >>> 6), 0x80 ||| (n &&& 0x3F)]
  else if n < 0x10000 then
    [0xE0 ||| (n >>> 12), 0x80 ||| ((n >>> 6) &&& 0x3F), 0x80 ||| (n &&& 0x3F)]
  else
    [0xF0 ||| (n >>> 18), 0x80 ||| ((n >>> 12) &&& 0x3F),
     0x80 ||| ((n >>> 6) &&& 0x3F), 0x80 ||| (n &&& 0x3F)]

/-- The bytes of a Go string: Go's `[]byte(host)` conversion. -/
def strBytes (s : String) : List Nat :=
  s.data.foldr (fun c acc => charBytes c ++ acc) []

/-- `htons` from `socks.go` lines 105-109: `binary.BigEndian.PutUint16`
writes the 16-bit value most-significant byte first. -/
def htons (n : Nat) : List Nat :=
  [n / 256 % 256, n % 256]

/-- Errors of the external endpoint-resolver collaborators
(`net.SplitHostPort` / `strconv.ParseUint`), classified as in the spec's
error taxonomy (§7).  Each constructor carries the text the underlying Go
error reports. -/
inductive ResolveError where
  /-- Malformed address (missing separator, empty host); carries the address. -/
  | invalidAddress (addr : String)
  /-- Non-numeric or out-of-range port; carries the offending port text. -/
  | invalidPort (text : String)
  deriving DecidableEq, Repr

/-- The classified errors `DialSocks5Timeout` can return, one constructor per
`return nil, err` site in `socks.go`; each payload is exactly the data the Go
code interpolates into the corresponding error message. -/
inductive SocksError where
  /-- `net.DialTimeout` failed (line 34): transport error. -/
  | dialError
  /-- `conn.SetDeadline` failed (line 40): transport error. -/
  | deadlineError
  /-- A `conn.Write` failed (lines 46, 76): transport error. -/
  | writeError
  /-- An `io.ReadFull` failed (lines 51, 81, 96, 98): transport error. -/
  | readError
  /-- Line 56: `"SOCKS proxy server does not support SOCKS5"` — a constant
  message with no payload. -/
  | noSocks5Support
  /-- Line 59: `"SOCKS authentication method negotiation failed; expected %x,
  got %x"` with `Socks5NoAuthentication` and `resp[1]`. -/
  | authNegotiationFailed (expected actual : Nat)
  /-- Lines 63-66: the resolver's error, surfaced unchanged. -/
  | resolve (e : ResolveError)
  /-- Line 69: `"hostname %s over maximum length %d"` with the host and 255. -/
  | hostTooLong (host : String) (limit : Nat)
  /-- Line 86: `"SOCKS version %x is not 5"` with `resp[0]`. -/
  | badVersion (b : Nat)
  /-- Line 89: `"could not complete SOCKS5 connection: %x"` with `resp[1]`. -/
  | connectRefused (b : Nat)
  /-- Line 92: `"SOCKS5: reserved byte %x is not 0x00"` with `resp[2]`. -/
  | badReserved (b : Nat)
  /-- Line 100: `"invalid address type %x in CONNECT response"` with `resp[3]`. -/
  | unsupportedAddressType (b : Nat)
  deriving DecidableEq, Repr

/-- The transport connection, seen as explicit state: the bytes the proxy
still has queued for the client, the bytes the client has written to the wire
so far, and the absolute deadline set on the connection (if any). -/
structure Conn where
  input : List Nat
  written : List Nat
  deadline : Option Nat
  deriving DecidableEq, Repr

/-- Behaviour of the external world for one call: whether each fallible
transport operation succeeds, how long the dial takes (used only to show the
deadline is computed from the time recorded *before* the dial), and the byte
stream the proxy sends. -/
structure Net where
  dialOk : Bool
  setDeadlineOk : Bool
  greetingWriteOk : Bool
  requestWriteOk : Bool
  dialElapsed : Nat
  input : List Nat
  deriving DecidableEq, Repr

/-- A `Net` in which every transport operation succeeds and the dial is
instantaneous. -/
def Net.allOk (input : List Nat) : Net :=
  ⟨true, true, true, true, 0, input⟩

/-- `io.ReadFull(conn, buf[:n])`: reads exactly `n` bytes, failing (with EOF /
`ErrUnexpectedEOF`) when the stream has fewer than `n` bytes left. -/
def readFull (conn : Conn) (n : Nat) : Option (List Nat × Conn) :=
  if n ≤ conn.input.length then
    some (conn.input.take n, { conn with input := conn.input.drop n })
  else
    none

/-- Modelled from the spec: `net.SplitHostPort` is an external collaborator
(the spec's Endpoint Resolver, §4.2, treats the "authoritative host:port
string parser" as a black box).  "Splits on the last colon-delimited
boundary".  Returns the split point: characters before the last colon and
after it. -/
def splitLastColon : List Char → Option (List Char × List Char)
  | [] => none
  | c :: rest =>
    match splitLastColon rest with
    | some (h, p) => some (c :: h, p)
    | none => if c = ':' then some ([], rest) else none

/-- Strip one pair of enclosing square brackets (bracketed IPv6 literal). -/
def stripBrackets (cs : List Char) : List Char :=
  match cs with
  | '[' :: rest =>
    if rest.getLast? = some ']' then rest.dropLast else cs
  | _ => cs

/-- Modelled from the spec: `net.SplitHostPort` (§4.2): "Splits on the last
colon-delimited boundary (must correctly handle bracketed IPv6 literals). ...
Any malformed address (missing separator, empty host) fails with
`InvalidAddress`." -/
def specSplitHostPort (addr : String) : Except ResolveError (String × String) :=
  match splitLastColon addr.data with
  | none => .error (.invalidAddress addr)
  | some (h, p) =>
    let h := stripBrackets h
    if h.isEmpty then .error (.invalidAddress addr)
    else .ok (String.mk h, String.mk p)

/-- Modelled from the spec: `strconv.ParseUint(portStr, 10, 16)` (§4.2):
"Parses the port substring as a base-10 unsigned integer in [0, 65535]; any
non-numeric or out-of-range value fails with `InvalidPort`, naming the
offending text." -/
def specParsePort (s : String) : Except ResolveError Nat :=
  if s.data ≠ [] ∧ s.data.all Char.isDigit then
    let n := s.data.foldl (fun acc c => acc * 10 + (c.toNat - 48)) 0
    if n ≤ 65535 then .ok n else .error (.invalidPort s)
  else
    .error (.invalidPort s)

/-- `splitHostPort` from `socks.go` lines 111-122: `net.SplitHostPort`
followed by `strconv.ParseUint(portStr, 10, 16)`; the final `uint16(portInt)`
conversion is the identity because `ParseUint` with bit size 16 already
enforces the value is at most 65535. -/
def splitHostPort (addr : String) : Except ResolveError (String × Nat) :=
  match specSplitHostPort addr with
  | .error e => .error e
  | .ok (host, portStr) =>
    match specParsePort portStr with
    | .error e => .error e
    | .ok portInt => .ok (host, portInt)

/-- The 3-byte greeting written at `socks.go` line 45:
`[]byte{Socks5Version, 1, Socks5NoAuthentication}`. -/
def greeting : List Nat :=
  [Socks5Version, 1, Socks5NoAuthentication]

/-- The connect request built at `socks.go` lines 71-74:
`[]byte{Socks5Version, Socks5Connect, 0x00, Socks5DomainName,
byte(len(hostBytes))}` followed by the host bytes and `htons(port)`.
`byte(...)` truncates to 8 bits, hence the `% 256`. -/
def connectRequest (host : String) (port : Nat) : List Nat :=
  [Socks5Version, Socks5Connect, 0x00, Socks5DomainName,
   (strBytes host).length % 256] ++ strBytes host ++ htons port

/-- The outcome of one call to `DialSocks5Timeout`: `conn`/`err` are the two
Go return values (`nil` = `none`), and `trace` is the final state of the
transport, kept so that properties about what was written to the wire are
statable even on paths where the Go function returns a `nil` connection. -/
structure RunResult where
  conn : Option Conn
  err : Option SocksError
  trace : Conn
  deriving DecidableEq, Repr

/-!
`DialSocks5Timeout` (`socks.go` lines 29-103) is a straight-line function
with early returns; it is embedded below as a chain of named stages, one per
block of the source, each passing the transport state to the next.
-/

/-- `socks.go` lines 94-102: the `switch resp[3]` on the bound address type,
followed by the final `return conn, err`.  When the bound-address read fails,
the `return conn, err` at line 102 returns the live `conn` together with the
non-nil error. -/
def boundAddrStep (atyp : Nat) (conn : Conn) : RunResult :=
  match atyp with
  | 0x01 =>
    match readFull conn (4 + 2) with
    | none => ⟨some conn, some .readError, conn⟩
    | some (_, conn') => ⟨some conn', none, conn'⟩
  | 0x04 =>
    match readFull conn (16 + 2) with
    | none => ⟨some conn, some .readError, conn⟩
    | some (_, conn') => ⟨some conn', none, conn'⟩
  | b => ⟨none, some (.unsupportedAddressType b), conn⟩

/-- `socks.go` lines 85-102: validation of the 4-byte connect-reply header
(version, status, reserved), then the address-type switch. -/
def connectReplyStep (resp : List Nat) (conn : Conn) : RunResult :=
  if resp.getD 0 0 ≠ Socks5Version then
    ⟨none, some (.badVersion (resp.getD 0 0)), conn⟩
  else if resp.getD 1 0 ≠ Socks5RequestGranted then
    ⟨none, some (.connectRefused (resp.getD 1 0)), conn⟩
  else if resp.getD 2 0 ≠ 0x00 then
    ⟨none, some (.badReserved (resp.getD 2 0)), conn⟩
  else
    boundAddrStep (resp.getD 3 0) conn

/-- `socks.go` lines 63-102: resolve the target address, validate the host
length, write the connect request, then read and process the connect reply. -/
def requestStep (net : Net) (targetAddr : String) (conn : Conn) : RunResult :=
  match splitHostPort targetAddr with
  | .error e => ⟨none, some (.resolve e), conn⟩
  | .ok (host, port) =>
    if (strBytes host).length > 0xFF then
      ⟨none, some (.hostTooLong host 0xFF), conn⟩
    else if net.requestWriteOk = false then
      ⟨none, some .writeError, conn⟩
    else
      let conn' : Conn := { conn with written := conn.written ++ connectRequest host port }
      match readFull conn' 4 with
      | none => ⟨none, some .readError, conn'⟩
      | some (resp, conn'') => connectReplyStep resp conn''

/-- `socks.go` lines 55-60 then onward: validation of the 2-byte
method-selection reply, then the connect-request phase. -/
def methodReplyStep (net : Net) (targetAddr : String) (resp : List Nat)
    (conn : Conn) : RunResult :=
  if resp.getD 0 0 ≠ Socks5Version then
    ⟨none, some .noSocks5Support, conn⟩
  else if resp.getD 1 0 ≠ Socks5NoAuthentication then
    ⟨none, some (.authNegotiationFailed Socks5NoAuthentication (resp.getD 1 0)), conn⟩
  else
    requestStep net targetAddr conn

/-- `DialSocks5Timeout` from `socks.go` lines 29-103, embedded over the
explicit transport state.  `t0` is the value of `time.Now()` recorded at line
32; the dial consumes `net.dialElapsed` time, so `t0 + net.dialElapsed` is
the current time when `SetDeadline` runs — the code instead passes
`now.Add(timeout)` computed from the saved `t0` (lines 38-39). -/
def DialSocks5Timeout (net : Net) (targetAddr : String) (t0 timeout : Nat) :
    RunResult :=
  let conn : Conn := { input := net.input, written := [], deadline := none }
  -- conn, err = net.DialTimeout("tcp", proxy, timeout)
  if net.dialOk = false then ⟨none, some .dialError, conn⟩ else
  -- err = conn.SetDeadline(now.Add(timeout))  -- now = t0, taken before the dial
  if net.setDeadlineOk = false then ⟨none, some .deadlineError, conn⟩ else
  let conn' : Conn := { conn with deadline := some (t0 + timeout) }
  -- conn.Write([]byte{Socks5Version, 1, Socks5NoAuthentication})
  if net.greetingWriteOk = false then ⟨none, some .writeError, conn'⟩ else
  let conn'' : Conn := { conn' with written := conn'.written ++ greeting }
  -- io.ReadFull(conn, resp[:2])
  match readFull conn'' 2 with
  | none => ⟨none, some .readError, conn''⟩
  | some (resp, conn''') => methodReplyStep net targetAddr resp conn'''

/-- Whether an error is an authentication-negotiation failure (used to state
that a particular run's error is not of that class). -/
def isAuthFailure : Option SocksError → Bool
  | some (.authNegotiationFailed _ _) => true
  | _ => false

/-- A 255-byte host name, exactly at the single-byte length limit. -/
def hostA255 : String := String.mk (List.replicate 255 'a')

/-- A 256-byte host name, one over the single-byte length limit. -/
def hostA256 : String := String.mk (List.replicate 256 'a')

/-!
## Stage lemmas

Invariants of the individual stages: reads never change the bytes written or
the deadline, and whenever a stage returns a connection handle it is the
final transport state.
-/

set_option maxRecDepth 10000

theorem readFull_written_deadline {c : Conn} {n : Nat} {resp : List Nat} {c' : Conn}
    (h : readFull c n = some (resp, c')) :
    c'.written = c.written ∧ c'.deadline = c.deadline := by
  unfold readFull at h
  split at h
  · simp only [Option.some.injEq, Prod.mk.injEq] at h
    obtain ⟨-, h2⟩ := h
    subst h2
    exact ⟨rfl, rfl⟩
  · exact absurd h (by simp)

theorem boundAddrStep_trace (atyp : Nat) (conn : Conn) :
    (boundAddrStep atyp conn).trace.written = conn.written ∧
    (boundAddrStep atyp conn).trace.deadline = conn.deadline := by
  unfold boundAddrStep
  split
  · split
    · simp
    · next h => exact ⟨(readFull_written_deadline h).1, (readFull_written_deadline h).2⟩
  · split
    · simp
    · next h => exact ⟨(readFull_written_deadline h).1, (readFull_written_deadline h).2⟩
  · simp

theorem connectReplyStep_trace (resp : List Nat) (conn : Conn) :
    (connectReplyStep resp conn).trace.written = conn.written ∧
    (connectReplyStep resp conn).trace.deadline = conn.deadline := by
  unfold connectReplyStep
  split
  · simp
  · split
    · simp
    · split
      · simp
      · exact boundAddrStep_trace _ _

theorem conn_eq_trace_boundAddrStep (atyp : Nat) (conn : Conn) :
    (boundAddrStep atyp conn).conn = none ∨
    (boundAddrStep atyp conn).conn = some (boundAddrStep atyp conn).trace := by
  unfold boundAddrStep
  split
  · split <;> simp
  · split <;> simp
  · simp

theorem conn_eq_trace_connectReplyStep (resp : List Nat) (conn : Conn) :
    (connectReplyStep resp conn).conn = none ∨
    (connectReplyStep resp conn).conn = some (connectReplyStep resp conn).trace := by
  unfold connectReplyStep
  split
  · simp
  · split
    · simp
    · split
      · simp
      · exact conn_eq_trace_boundAddrStep _ _

theorem conn_eq_trace_requestStep (net : Net) (targetAddr : String) (conn : Conn) :
    (requestStep net targetAddr conn).conn = none ∨
    (requestStep net targetAddr conn).conn = some (requestStep net targetAddr conn).trace := by
  unfold requestStep
  split
  · simp
  · split
    · simp
    · split
      · simp
      · dsimp only
        split
        · simp
        · exact conn_eq_trace_connectReplyStep _ _

theorem conn_eq_trace_methodReplyStep (net : Net) (targetAddr : String)
    (resp : List Nat) (conn : Conn) :
    (methodReplyStep net targetAddr resp conn).conn = none ∨
    (methodReplyStep net targetAddr resp conn).conn
      = some (methodReplyStep net targetAddr resp conn).trace := by
  unfold methodReplyStep
  split
  · simp
  · split
    · simp
    · exact conn_eq_trace_requestStep _ _ _

theorem conn_eq_trace (net : Net) (targetAddr : String) (t0 timeout : Nat) :
    (DialSocks5Timeout net targetAddr t0 timeout).conn = none ∨
    (DialSocks5Timeout net targetAddr t0 timeout).conn
      = some (DialSocks5Timeout net targetAddr t0 timeout).trace := by
  unfold DialSocks5Timeout
  split
  · simp
  · split
    · simp
    · split
      · simp
      · dsimp only
        split
        · simp
        · exact conn_eq_trace_methodReplyStep _ _ _ _

theorem readFull_take (l w : List Nat) (d : Option Nat) (n : Nat) (h : n ≤ l.length) :
    readFull ⟨l, w, d⟩ n = some (l.take n, ⟨l.drop n, w, d⟩) := by
  unfold readFull
  rw [if_pos h]

theorem readFull_short (l w : List Nat) (d : Option Nat) (n : Nat) (h : l.length < n) :
    readFull ⟨l, w, d⟩ n = none := by
  unfold readFull
  rw [if_neg (by simpa using by omega)]

theorem readFull_cons₂ (b0 b1 : Nat) (more w : List Nat) (d : Option Nat) :
    readFull ⟨b0 :: b1 :: more, w, d⟩ 2 = some ([b0, b1], ⟨more, w, d⟩) := by
  rw [readFull_take _ _ _ _ (by simp)]
  simp

theorem readFull_cons₄ (b0 b1 b2 b3 : Nat) (rest w : List Nat) (d : Option Nat) :
    readFull ⟨b0 :: b1 :: b2 :: b3 :: rest, w, d⟩ 4
      = some ([b0, b1, b2, b3], ⟨rest, w, d⟩) := by
  rw [readFull_take _ _ _ _ (by simp)]
  simp

theorem requestStep_trace_deadline (net : Net) (targetAddr : String) (conn : Conn) :
    (requestStep net targetAddr conn).trace.deadline = conn.deadline := by
  unfold requestStep
  split
  · simp
  · split
    · simp
    · split
      · simp
      · dsimp only
        split
        · simp
        · next resp conn'' h =>
          rw [(connectReplyStep_trace resp conn'').2]
          exact (readFull_written_deadline h).2

theorem methodReplyStep_trace_deadline (net : Net) (targetAddr : String)
    (resp : List Nat) (conn : Conn) :
    (methodReplyStep net targetAddr resp conn).trace.deadline = conn.deadline := by
  unfold methodReplyStep
  split
  · simp
  · split
    · simp
    · exact requestStep_trace_deadline _ _ _

theorem methodReplyStep_success (net : Net) (targetAddr : String)
    (resp : List Nat) (conn : Conn)
    (hr : (methodReplyStep net targetAddr resp conn).err = none) :
    methodReplyStep net targetAddr resp conn = requestStep net targetAddr conn := by
  unfold methodReplyStep at hr ⊢
  split at hr
  next h0 => exact absurd hr (by simp)
  next h0 =>
    split at hr
    next h1 => exact absurd hr (by simp)
    next h1 => rw [if_neg h0, if_neg h1]

theorem requestStep_written_of_checks (net : Net) (targetAddr : String) (conn : Conn)
    (host : String) (port : Nat)
    (hsp : splitHostPort targetAddr = .ok (host, port))
    (hlen : (strBytes host).length ≤ 0xFF)
    (hw : net.requestWriteOk = true) :
    (requestStep net targetAddr conn).trace.written
      = conn.written ++ connectRequest host port := by
  unfold requestStep
  rw [hsp]
  try dsimp only
  rw [if_neg (by omega), if_neg (by simp [hw])]
  try dsimp only
  split
  · simp
  · next resp conn'' h =>
    rw [(connectReplyStep_trace resp conn'').1]
    exact (readFull_written_deadline h).1

theorem requestStep_success_written (net : Net) (targetAddr : String) (conn : Conn)
    (host : String) (port : Nat)
    (hsp : splitHostPort targetAddr = .ok (host, port))
    (hr : (requestStep net targetAddr conn).err = none) :
    (requestStep net targetAddr conn).trace.written
      = conn.written ++ connectRequest host port := by
  unfold requestStep at hr
  rw [hsp] at hr
  try dsimp only at hr
  by_cases hlen : (strBytes host).length > 0xFF
  · rw [if_pos hlen] at hr
    exact absurd hr (by simp)
  · by_cases hw : net.requestWriteOk = false
    · rw [if_neg hlen, if_pos hw] at hr
      exact absurd hr (by simp)
    · exact requestStep_written_of_checks net targetAddr conn host port hsp
        (by omega) (by simpa using hw)

theorem run_success_written (net : Net) (targetAddr : String) (t0 timeout : Nat)
    (host : String) (port : Nat)
    (hsp : splitHostPort targetAddr = .ok (host, port))
    (hr : (DialSocks5Timeout net targetAddr t0 timeout).err = none) :
    (DialSocks5Timeout net targetAddr t0 timeout).trace.written
      = greeting ++ connectRequest host port := by
  unfold DialSocks5Timeout at hr ⊢
  dsimp only at hr ⊢
  by_cases h1 : net.dialOk = false
  · rw [if_pos h1] at hr
    exact absurd hr (by simp)
  rw [if_neg h1] at hr ⊢
  by_cases h2 : net.setDeadlineOk = false
  · rw [if_pos h2] at hr
    exact absurd hr (by simp)
  rw [if_neg h2] at hr ⊢
  by_cases h3 : net.greetingWriteOk = false
  · rw [if_pos h3] at hr
    exact absurd hr (by simp)
  rw [if_neg h3] at hr ⊢
  cases hrf : readFull ⟨net.input, [] ++ greeting, some (t0 + timeout)⟩ 2 with
  | none =>
    rw [hrf] at hr
    exact absurd hr (by simp)
  | some p =>
    obtain ⟨resp, conn3⟩ := p
    rw [hrf] at hr
    dsimp only at hr
    try dsimp only
    have hmr := methodReplyStep_success net targetAddr resp conn3 hr
    rw [hmr] at hr
    rw [hmr]
    rw [requestStep_success_written net targetAddr conn3 host port hsp hr]
    rw [(readFull_written_deadline hrf).1]
    simp

theorem run_success_deadline (net : Net) (targetAddr : String) (t0 timeout : Nat)
    (hr : (DialSocks5Timeout net targetAddr t0 timeout).err = none) :
    (DialSocks5Timeout net targetAddr t0 timeout).trace.deadline
      = some (t0 + timeout) := by
  unfold DialSocks5Timeout at hr ⊢
  dsimp only at hr ⊢
  by_cases h1 : net.dialOk = false
  · rw [if_pos h1] at hr
    exact absurd hr (by simp)
  rw [if_neg h1] at hr ⊢
  by_cases h2 : net.setDeadlineOk = false
  · rw [if_pos h2] at hr
    exact absurd hr (by simp)
  rw [if_neg h2] at hr ⊢
  by_cases h3 : net.greetingWriteOk = false
  · rw [if_pos h3] at hr
    exact absurd hr (by simp)
  rw [if_neg h3] at hr ⊢
  cases hrf : readFull ⟨net.input, [] ++ greeting, some (t0 + timeout)⟩ 2 with
  | none =>
    rw [hrf] at hr
  | some p =>
    obtain ⟨resp, conn3⟩ := p
    try dsimp only
    rw [methodReplyStep_trace_deadline]
    rw [(readFull_written_deadline hrf).2]

theorem boundAddrStep_success_conn (atyp : Nat) (conn : Conn)
    (hr : (boundAddrStep atyp conn).err = none) :
    (boundAddrStep atyp conn).conn = some (boundAddrStep atyp conn).trace := by
  unfold boundAddrStep at hr ⊢
  split at hr
  · split at hr
    · exact absurd hr (by simp)
    · rfl
  · split at hr
    · exact absurd hr (by simp)
    · rfl
  · exact absurd hr (by simp)

theorem connectReplyStep_success_conn (resp : List Nat) (conn : Conn)
    (hr : (connectReplyStep resp conn).err = none) :
    (connectReplyStep resp conn).conn = some (connectReplyStep resp conn).trace := by
  unfold connectReplyStep at hr ⊢
  split at hr
  next h0 => exact absurd hr (by simp)
  next h0 =>
    rw [if_neg h0]
    split at hr
    next h1 => exact absurd hr (by simp)
    next h1 =>
      rw [if_neg h1]
      split at hr
      next h2 => exact absurd hr (by simp)
      next h2 =>
        rw [if_neg h2]
        exact boundAddrStep_success_conn _ _ hr

theorem requestStep_success_conn (net : Net) (targetAddr : String) (conn : Conn)
    (hr : (requestStep net targetAddr conn).err = none) :
    (requestStep net targetAddr conn).conn = some (requestStep net targetAddr conn).trace := by
  unfold requestStep at hr ⊢
  split at hr
  next e heq => exact absurd hr (by simp)
  next host port heq =>
    try dsimp only at hr ⊢
    split at hr
    next h0 => exact absurd hr (by simp)
    next h0 =>
      rw [if_neg h0]
      split at hr
      next h1 => exact absurd hr (by simp)
      next h1 =>
        rw [if_neg h1]
        try dsimp only at hr ⊢
        split at hr
        next heq2 => exact absurd hr (by simp)
        next resp c'' heq2 => exact connectReplyStep_success_conn _ _ hr

theorem run_success_conn (net : Net) (targetAddr : String) (t0 timeout : Nat)
    (hr : (DialSocks5Timeout net targetAddr t0 timeout).err = none) :
    (DialSocks5Timeout net targetAddr t0 timeout).conn
      = some (DialSocks5Timeout net targetAddr t0 timeout).trace := by
  unfold DialSocks5Timeout at hr ⊢
  dsimp only at hr ⊢
  by_cases h1 : net.dialOk = false
  · rw [if_pos h1] at hr
    exact absurd hr (by simp)
  rw [if_neg h1] at hr ⊢
  by_cases h2 : net.setDeadlineOk = false
  · rw [if_pos h2] at hr
    exact absurd hr (by simp)
  rw [if_neg h2] at hr ⊢
  by_cases h3 : net.greetingWriteOk = false
  · rw [if_pos h3] at hr
    exact absurd hr (by simp)
  rw [if_neg h3] at hr ⊢
  cases hrf : readFull ⟨net.input, [] ++ greeting, some (t0 + timeout)⟩ 2 with
  | none =>
    rw [hrf] at hr
    exact absurd hr (by simp)
  | some p =>
    obtain ⟨resp, conn3⟩ := p
    rw [hrf] at hr
    dsimp only at hr
    try dsimp only
    have hmr := methodReplyStep_success net targetAddr resp conn3 hr
    rw [hmr] at hr
    rw [hmr]
    exact requestStep_success_conn _ _ _ hr

theorem boundAddrStep_err_of_conn (atyp : Nat) (conn : Conn) (c : Conn) (e : SocksError)
    (hc : (boundAddrStep atyp conn).conn = some c)
    (he : (boundAddrStep atyp conn).err = some e) :
    e = .readError := by
  unfold boundAddrStep at hc he
  split at he
  · split at he
    · simpa using he.symm
    · exact absurd he (by simp)
  · split at he
    · simpa using he.symm
    · exact absurd he (by simp)
  · exact absurd hc (by simp)

theorem connectReplyStep_err_of_conn (resp : List Nat) (conn : Conn) (c : Conn)
    (e : SocksError)
    (hc : (connectReplyStep resp conn).conn = some c)
    (he : (connectReplyStep resp conn).err = some e) :
    e = .readError := by
  unfold connectReplyStep at hc he
  split at he
  next h0 =>
    rw [if_pos h0] at hc
    exact absurd hc (by simp)
  next h0 =>
    rw [if_neg h0] at hc
    split at he
    next h1 =>
      rw [if_pos h1] at hc
      exact absurd hc (by simp)
    next h1 =>
      rw [if_neg h1] at hc
      split at he
      next h2 =>
        rw [if_pos h2] at hc
        exact absurd hc (by simp)
      next h2 =>
        rw [if_neg h2] at hc
        exact boundAddrStep_err_of_conn _ _ _ _ hc he

theorem requestStep_err_of_conn (net : Net) (targetAddr : String) (conn : Conn)
    (c : Conn) (e : SocksError)
    (hc : (requestStep net targetAddr conn).conn = some c)
    (he : (requestStep net targetAddr conn).err = some e) :
    e = .readError := by
  unfold requestStep at hc he
  split at he
  next e' heq =>
    rw [heq] at hc
    try dsimp only at hc
    exact absurd hc (by simp)
  next host port heq =>
    rw [heq] at hc
    try dsimp only at hc
    split at he
    next h0 =>
      rw [if_pos h0] at hc
      exact absurd hc (by simp)
    next h0 =>
      rw [if_neg h0] at hc
      split at he
      next h1 =>
        rw [if_pos h1] at hc
        exact absurd hc (by simp)
      next h1 =>
        rw [if_neg h1] at hc
        try dsimp only at hc he
        split at he
        next heq2 =>
          rw [heq2] at hc
          try dsimp only at hc
          exact absurd hc (by simp)
        next resp c'' heq2 =>
          rw [heq2] at hc
          try dsimp only at hc
          exact connectReplyStep_err_of_conn _ _ _ _ hc he

theorem methodReplyStep_err_of_conn (net : Net) (targetAddr : String)
    (resp : List Nat) (conn : Conn) (c : Conn) (e : SocksError)
    (hc : (methodReplyStep net targetAddr resp conn).conn = some c)
    (he : (methodReplyStep net targetAddr resp conn).err = some e) :
    e = .readError := by
  unfold methodReplyStep at hc he
  split at he
  next h0 =>
    rw [if_pos h0] at hc
    exact absurd hc (by simp)
  next h0 =>
    rw [if_neg h0] at hc
    split at he
    next h1 =>
      rw [if_pos h1] at hc
      exact absurd hc (by simp)
    next h1 =>
      rw [if_neg h1] at hc
      exact requestStep_err_of_conn _ _ _ _ _ hc he

theorem run_err_of_conn (net : Net) (targetAddr : String) (t0 timeout : Nat)
    (c : Conn) (e : SocksError)
    (hc : (DialSocks5Timeout net targetAddr t0 timeout).conn = some c)
    (he : (DialSocks5Timeout net targetAddr t0 timeout).err = some e) :
    e = .readError := by
  unfold DialSocks5Timeout at hc he
  dsimp only at hc he
  split at he
  next h1 =>
    rw [if_pos h1] at hc
    exact absurd hc (by simp)
  next h1 =>
    rw [if_neg h1] at hc
    split at he
    next h2 =>
      rw [if_pos h2] at hc
      exact absurd hc (by simp)
    next h2 =>
      rw [if_neg h2] at hc
      split at he
      next h3 =>
        rw [if_pos h3] at hc
        exact absurd hc (by simp)
      next h3 =>
        rw [if_neg h3] at hc
        split at he
        next heq =>
          rw [heq] at hc
          try dsimp only at hc
          exact absurd hc (by simp)
        next resp conn3 heq =>
          rw [heq] at hc
          try dsimp only at hc
          exact methodReplyStep_err_of_conn _ _ _ _ _ _ hc he

/-!
## Shaped-run lemmas

Reduction of an all-successful run on a structurally explicit proxy byte
stream to the later stages of the handshake.
-/

theorem run_cons₂ (b0 b1 : Nat) (more : List Nat) (targetAddr : String)
    (t0 timeout : Nat) :
    DialSocks5Timeout (Net.allOk (b0 :: b1 :: more)) targetAddr t0 timeout
      = methodReplyStep (Net.allOk (b0 :: b1 :: more)) targetAddr [b0, b1]
          ⟨more, greeting, some (t0 + timeout)⟩ := by
  simp [DialSocks5Timeout, Net.allOk, readFull_cons₂]

theorem run_short_read (input : List Nat) (targetAddr : String) (t0 timeout : Nat)
    (h : input.length < 2) :
    DialSocks5Timeout (Net.allOk input) targetAddr t0 timeout
      = ⟨none, some .readError, ⟨input, greeting, some (t0 + timeout)⟩⟩ := by
  simp [DialSocks5Timeout, Net.allOk, readFull_short input greeting (some (t0 + timeout)) 2 h]

theorem methodReplyStep_ok_bytes (net : Net) (targetAddr : String) (conn : Conn) :
    methodReplyStep net targetAddr [Socks5Version, Socks5NoAuthentication] conn
      = requestStep net targetAddr conn := by
  simp [methodReplyStep, Socks5Version, Socks5NoAuthentication]

theorem run_to_reply (b0 b1 b2 b3 : Nat) (rest : List Nat) (targetAddr host : String)
    (port t0 timeout : Nat)
    (hsp : splitHostPort targetAddr = .ok (host, port))
    (hlen : (strBytes host).length ≤ 0xFF) :
    DialSocks5Timeout (Net.allOk (5 :: 0 :: b0 :: b1 :: b2 :: b3 :: rest)) targetAddr t0 timeout
      = connectReplyStep [b0, b1, b2, b3]
          ⟨rest, greeting ++ connectRequest host port, some (t0 + timeout)⟩ := by
  rw [run_cons₂]
  rw [show ([5, 0] : List Nat) = [Socks5Version, Socks5NoAuthentication] from rfl,
    methodReplyStep_ok_bytes]
  unfold requestStep
  rw [hsp]
  try dsimp only
  rw [if_neg (by omega), if_neg (by simp [Net.allOk])]
  try dsimp only
  rw [readFull_cons₄]

theorem connectReplyStep_badVersion (b0 b1 b2 b3 : Nat) (c : Conn) (h : b0 ≠ 0x05) :
    connectReplyStep [b0, b1, b2, b3] c = ⟨none, some (.badVersion b0), c⟩ := by
  simp [connectReplyStep, Socks5Version, h]

theorem connectReplyStep_refused (b1 b2 b3 : Nat) (c : Conn) (h : b1 ≠ 0x00) :
    connectReplyStep [0x05, b1, b2, b3] c = ⟨none, some (.connectRefused b1), c⟩ := by
  simp [connectReplyStep, Socks5Version, Socks5RequestGranted, h]

theorem connectReplyStep_badReserved (b2 b3 : Nat) (c : Conn) (h : b2 ≠ 0x00) :
    connectReplyStep [0x05, 0x00, b2, b3] c = ⟨none, some (.badReserved b2), c⟩ := by
  simp [connectReplyStep, Socks5Version, Socks5RequestGranted, h]

theorem connectReplyStep_toBound (b3 : Nat) (c : Conn) :
    connectReplyStep [0x05, 0x00, 0x00, b3] c = boundAddrStep b3 c := by
  simp [connectReplyStep, Socks5Version, Socks5RequestGranted]

theorem boundAddrStep_ipv4 (rest w : List Nat) (d : Option Nat) (h : 6 ≤ rest.length) :
    boundAddrStep 0x01 ⟨rest, w, d⟩
      = ⟨some ⟨rest.drop 6, w, d⟩, none, ⟨rest.drop 6, w, d⟩⟩ := by
  simp [boundAddrStep, readFull, h]

theorem boundAddrStep_ipv6 (rest w : List Nat) (d : Option Nat) (h : 18 ≤ rest.length) :
    boundAddrStep 0x04 ⟨rest, w, d⟩
      = ⟨some ⟨rest.drop 18, w, d⟩, none, ⟨rest.drop 18, w, d⟩⟩ := by
  simp [boundAddrStep, readFull, h]

theorem boundAddrStep_other (atyp : Nat) (c : Conn) (h1 : atyp ≠ 0x01) (h4 : atyp ≠ 0x04) :
    boundAddrStep atyp c = ⟨none, some (.unsupportedAddressType atyp), c⟩ := by
  unfold boundAddrStep
  split
  next => exact absurd rfl h1
  next => exact absurd rfl h4
  next => rfl

theorem methodReplyStep_five (net : Net) (targetAddr : String) (conn : Conn) :
    methodReplyStep net targetAddr [5, 0] conn = requestStep net targetAddr conn :=
  methodReplyStep_ok_bytes net targetAddr conn

theorem run_noSocks5 (b0 b1 : Nat) (more : List Nat) (targetAddr : String)
    (t0 timeout : Nat) (hb : b0 ≠ 0x05) :
    DialSocks5Timeout (Net.allOk (b0 :: b1 :: more)) targetAddr t0 timeout
      = ⟨none, some .noSocks5Support, ⟨more, greeting, some (t0 + timeout)⟩⟩ := by
  rw [run_cons₂]
  simp [methodReplyStep, Socks5Version, hb]

theorem run_authFailed (b : Nat) (more : List Nat) (targetAddr : String)
    (t0 timeout : Nat) (hb : b ≠ 0x00) :
    DialSocks5Timeout (Net.allOk (5 :: b :: more)) targetAddr t0 timeout
      = ⟨none, some (.authNegotiationFailed 0x00 b), ⟨more, greeting, some (t0 + timeout)⟩⟩ := by
  rw [run_cons₂]
  simp [methodReplyStep, Socks5Version, Socks5NoAuthentication, hb]

theorem run_resolve_error (more : List Nat) (targetAddr : String) (e : ResolveError)
    (t0 timeout : Nat) (hsp : splitHostPort targetAddr = .error e) :
    DialSocks5Timeout (Net.allOk (5 :: 0 :: more)) targetAddr t0 timeout
      = ⟨none, some (.resolve e), ⟨more, greeting, some (t0 + timeout)⟩⟩ := by
  rw [run_cons₂, methodReplyStep_five]
  unfold requestStep
  rw [hsp]

theorem run_hostTooLong (more : List Nat) (targetAddr host : String)
    (port t0 timeout : Nat)
    (hsp : splitHostPort targetAddr = .ok (host, port))
    (hlen : (strBytes host).length > 0xFF) :
    DialSocks5Timeout (Net.allOk (5 :: 0 :: more)) targetAddr t0 timeout
      = ⟨none, some (.hostTooLong host 0xFF), ⟨more, greeting, some (t0 + timeout)⟩⟩ := by
  rw [run_cons₂, methodReplyStep_five]
  unfold requestStep
  rw [hsp]
  try dsimp only
  rw [if_pos hlen]

theorem run_dialFail (net : Net) (targetAddr : String) (t0 timeout : Nat)
    (h : net.dialOk = false) :
    DialSocks5Timeout net targetAddr t0 timeout
      = ⟨none, some .dialError, ⟨net.input, [], none⟩⟩ := by
  unfold DialSocks5Timeout
  try dsimp only
  rw [if_pos h]

theorem run_deadlineFail (net : Net) (targetAddr : String) (t0 timeout : Nat)
    (h1 : net.dialOk = true) (h2 : net.setDeadlineOk = false) :
    DialSocks5Timeout net targetAddr t0 timeout
      = ⟨none, some .deadlineError, ⟨net.input, [], none⟩⟩ := by
  unfold DialSocks5Timeout
  try dsimp only
  rw [if_neg (by simp [h1]), if_pos h2]

theorem run_greetingWriteFail (net : Net) (targetAddr : String) (t0 timeout : Nat)
    (h1 : net.dialOk = true) (h2 : net.setDeadlineOk = true)
    (h3 : net.greetingWriteOk = false) :
    DialSocks5Timeout net targetAddr t0 timeout
      = ⟨none, some .writeError, ⟨net.input, [], some (t0 + timeout)⟩⟩ := by
  unfold DialSocks5Timeout
  try dsimp only
  rw [if_neg (by simp [h1]), if_neg (by simp [h2]), if_pos h3]

theorem run_methodReadFail (net : Net) (targetAddr : String) (t0 timeout : Nat)
    (h1 : net.dialOk = true) (h2 : net.setDeadlineOk = true)
    (h3 : net.greetingWriteOk = true) (hshort : net.input.length < 2) :
    DialSocks5Timeout net targetAddr t0 timeout
      = ⟨none, some .readError, ⟨net.input, greeting, some (t0 + timeout)⟩⟩ := by
  unfold DialSocks5Timeout
  try dsimp only
  rw [if_neg (by simp [h1]), if_neg (by simp [h2]), if_neg (by simp [h3])]
  try dsimp only
  rw [readFull_short net.input ([] ++ greeting) (some (t0 + timeout)) 2 hshort]
  rfl

theorem run_cons₂' (net : Net) (b0 b1 : Nat) (more : List Nat) (targetAddr : String)
    (t0 timeout : Nat)
    (h1 : net.dialOk = true) (h2 : net.setDeadlineOk = true)
    (h3 : net.greetingWriteOk = true)
    (hin : net.input = b0 :: b1 :: more) :
    DialSocks5Timeout net targetAddr t0 timeout
      = methodReplyStep net targetAddr [b0, b1]
          ⟨more, greeting, some (t0 + timeout)⟩ := by
  unfold DialSocks5Timeout
  try dsimp only
  rw [if_neg (by simp [h1]), if_neg (by simp [h2]), if_neg (by simp [h3])]
  try dsimp only
  rw [hin, readFull_cons₂]
  rfl

theorem run_to_reply' (net : Net) (b0 b1 b2 b3 : Nat) (rest : List Nat)
    (targetAddr host : String) (port t0 timeout : Nat)
    (h1 : net.dialOk = true) (h2 : net.setDeadlineOk = true)
    (h3 : net.greetingWriteOk = true) (hw : net.requestWriteOk = true)
    (hin : net.input = 5 :: 0 :: b0 :: b1 :: b2 :: b3 :: rest)
    (hsp : splitHostPort targetAddr = .ok (host, port))
    (hlen : (strBytes host).length ≤ 0xFF) :
    DialSocks5Timeout net targetAddr t0 timeout
      = connectReplyStep [b0, b1, b2, b3]
          ⟨rest, greeting ++ connectRequest host port, some (t0 + timeout)⟩ := by
  rw [run_cons₂' net 5 0 (b0 :: b1 :: b2 :: b3 :: rest) targetAddr t0 timeout h1 h2 h3 hin,
    methodReplyStep_five]
  unfold requestStep
  rw [hsp]
  try dsimp only
  rw [if_neg (by omega), if_neg (by simp [hw])]
  try dsimp only
  rw [readFull_cons₄]

theorem boundAddrStep_ipv4_short (rest w : List Nat) (d : Option Nat)
    (h : rest.length < 6) :
    boundAddrStep 0x01 ⟨rest, w, d⟩
      = ⟨some ⟨rest, w, d⟩, some .readError, ⟨rest, w, d⟩⟩ := by
  have h' : ¬(4 + 2 ≤ rest.length) := by omega
  simp [boundAddrStep, readFull, h']

theorem boundAddrStep_ipv6_short (rest w : List Nat) (d : Option Nat)
    (h : rest.length < 18) :
    boundAddrStep 0x04 ⟨rest, w, d⟩
      = ⟨some ⟨rest, w, d⟩, some .readError, ⟨rest, w, d⟩⟩ := by
  have h' : ¬(16 + 2 ≤ rest.length) := by omega
  simp [boundAddrStep, readFull, h']

/-!
## Resolver lemmas

Classification of the Endpoint Resolver's outcomes.
-/

theorem specParsePort_le (s : String) (n : Nat) (h : specParsePort s = .ok n) :
    n ≤ 65535 := by
  unfold specParsePort at h
  split at h
  · dsimp only at h
    split at h
    next hle =>
      simp only [Except.ok.injEq] at h
      omega
    next => exact absurd h (by simp)
  · exact absurd h (by simp)

theorem specParsePort_error (s : String) (e : ResolveError)
    (h : specParsePort s = .error e) : e = .invalidPort s := by
  unfold specParsePort at h
  split at h
  · dsimp only at h
    split at h
    · exact absurd h (by simp)
    · simpa using h.symm
  · simpa using h.symm

theorem specSplitHostPort_error (addr : String) (e : ResolveError)
    (h : specSplitHostPort addr = .error e) : e = .invalidAddress addr := by
  unfold specSplitHostPort at h
  split at h
  · simpa using h.symm
  · dsimp only at h
    split at h
    · simpa using h.symm
    · exact absurd h (by simp)

theorem splitHostPort_port_le (addr host : String) (port : Nat)
    (h : splitHostPort addr = .ok (host, port)) : port ≤ 65535 := by
  unfold splitHostPort at h
  split at h
  · exact absurd h (by simp)
  next host' portStr heq =>
    split at h
    · exact absurd h (by simp)
    next n heq2 =>
      simp only [Except.ok.injEq, Prod.mk.injEq] at h
      obtain ⟨-, h2⟩ := h
      subst h2
      exact specParsePort_le _ _ heq2

theorem splitHostPort_error_of_parse (addr host portStr : String) (e : ResolveError)
    (hs : specSplitHostPort addr = .ok (host, portStr))
    (hp : specParsePort portStr = .error e) :
    splitHostPort addr = .error e ∧ e = .invalidPort portStr := by
  refine ⟨?_, specParsePort_error _ _ hp⟩
  unfold splitHostPort
  rw [hs]
  try dsimp only
  rw [hp]

/-!
## Claims
-/

/-- C1: for every handshake in which the wire exchange succeeds, the bytes the
driver writes to the transport are exactly the 3-byte greeting
`[0x05, 0x01, 0x00]` followed by the connect request
`[0x05, 0x01, 0x00, 0x03, len(host)] ++ host-bytes ++ big-endian port`; in
particular for host="example.com", port=443 the connect request is
`05 01 00 03 0B 65 78 61 6D 70 6C 65 2E 63 6F 6D 01 BB`. -/
theorem C1_success_wire_bytes (net : Net) (targetAddr : String) (t0 timeout : Nat)
    (host : String) (port : Nat)
    (hsp : splitHostPort targetAddr = Except.ok (host, port))
    (hsucc : (DialSocks5Timeout net targetAddr t0 timeout).err = none) :
    (DialSocks5Timeout net targetAddr t0 timeout).trace.written
        = greeting ++ connectRequest host port
    ∧ greeting = [0x05, 0x01, 0x00]
    ∧ connectRequest "example.com" 443
        = [0x05, 0x01, 0x00, 0x03, 0x0B, 0x65, 0x78, 0x61, 0x6D, 0x70, 0x6C,
           0x65, 0x2E, 0x63, 0x6F, 0x6D, 0x01, 0xBB] :=
  ⟨run_success_written net targetAddr t0 timeout host port hsp hsucc, rfl, by decide⟩

/-- Witness for C1 at a concrete successful handshake. -/
theorem C1_success_wire_bytes_witness :
    splitHostPort "example.com:443" = Except.ok ("example.com", 443)
    ∧ (DialSocks5Timeout (Net.allOk [5, 0, 5, 0, 0, 1, 9, 9, 9, 9, 8, 8])
        "example.com:443" 0 5).err = none
    ∧ (DialSocks5Timeout (Net.allOk [5, 0, 5, 0, 0, 1, 9, 9, 9, 9, 8, 8])
        "example.com:443" 0 5).trace.written
        = greeting ++ connectRequest "example.com" 443 :=
  ⟨rfl, rfl,
   (C1_success_wire_bytes (Net.allOk [5, 0, 5, 0, 0, 1, 9, 9, 9, 9, 8, 8])
     "example.com:443" 0 5 "example.com" 443 rfl rfl).1⟩

/-- C2: for every 4-byte connect-reply header (after a successful method
exchange), the driver validates in order: byte0 ≠ 0x05 fails with the
version-mismatch error naming the byte; otherwise byte1 ≠ 0x00 fails with the
connect-refused error carrying the raw status byte; otherwise byte2 ≠ 0x00
fails with the reserved-byte error naming it; only when all three pass does
the run proceed to the address-type branch. -/
theorem C2_reply_validation_order (b0 b1 b2 b3 : Nat) (rest : List Nat)
    (targetAddr host : String) (port t0 timeout : Nat)
    (hsp : splitHostPort targetAddr = Except.ok (host, port))
    (hlen : (strBytes host).length ≤ 0xFF) :
    (b0 ≠ 0x05 →
      DialSocks5Timeout (Net.allOk (5 :: 0 :: b0 :: b1 :: b2 :: b3 :: rest))
          targetAddr t0 timeout
        = ⟨none, some (.badVersion b0),
           ⟨rest, greeting ++ connectRequest host port, some (t0 + timeout)⟩⟩)
    ∧ (b0 = 0x05 → b1 ≠ 0x00 →
      DialSocks5Timeout (Net.allOk (5 :: 0 :: b0 :: b1 :: b2 :: b3 :: rest))
          targetAddr t0 timeout
        = ⟨none, some (.connectRefused b1),
           ⟨rest, greeting ++ connectRequest host port, some (t0 + timeout)⟩⟩)
    ∧ (b0 = 0x05 → b1 = 0x00 → b2 ≠ 0x00 →
      DialSocks5Timeout (Net.allOk (5 :: 0 :: b0 :: b1 :: b2 :: b3 :: rest))
          targetAddr t0 timeout
        = ⟨none, some (.badReserved b2),
           ⟨rest, greeting ++ connectRequest host port, some (t0 + timeout)⟩⟩)
    ∧ (b0 = 0x05 → b1 = 0x00 → b2 = 0x00 →
      DialSocks5Timeout (Net.allOk (5 :: 0 :: b0 :: b1 :: b2 :: b3 :: rest))
          targetAddr t0 timeout
        = boundAddrStep b3
           ⟨rest, greeting ++ connectRequest host port, some (t0 + timeout)⟩) := by
  have hbase := run_to_reply b0 b1 b2 b3 rest targetAddr host port t0 timeout hsp hlen
  refine ⟨fun h => ?_, fun h0 h1 => ?_, fun h0 h1 h2 => ?_, fun h0 h1 h2 => ?_⟩
  · rw [hbase, connectReplyStep_badVersion _ _ _ _ _ h]
  · subst h0
    rw [hbase, connectReplyStep_refused _ _ _ _ h1]
  · subst h0
    subst h1
    rw [hbase, connectReplyStep_badReserved _ _ _ h2]
  · subst h0
    subst h1
    subst h2
    rw [hbase, connectReplyStep_toBound]

/-- Witness for C2 at a concrete reply header with a wrong version byte. -/
theorem C2_reply_validation_order_witness :
    splitHostPort "example.com:443" = Except.ok ("example.com", 443)
    ∧ (strBytes "example.com").length ≤ 0xFF
    ∧ (6 : Nat) ≠ 0x05
    ∧ DialSocks5Timeout (Net.allOk [5, 0, 6, 0, 0, 1]) "example.com:443" 0 5
        = ⟨none, some (.badVersion 6),
           ⟨[], greeting ++ connectRequest "example.com" 443, some 5⟩⟩ :=
  ⟨rfl, by decide, by decide,
   (C2_reply_validation_order 6 0 0 1 [] "example.com:443" "example.com" 443 0 5
     rfl (by decide)).1 (by decide)⟩

/-- C3 counterexample: a 2-byte method reply `[0x06, 0x01]` has method byte
0x01 ≠ 0x00, yet the handshake does not fail with the
authentication-negotiation error: the version check fires first, with the
constant unsupported-SOCKS5 error.  (The claim, as stated over *every* reply
with a nonzero method byte, is therefore false.) -/
theorem C3_counterexample :
    isAuthFailure (DialSocks5Timeout (Net.allOk [0x06, 0x01])
        "example.com:443" 0 5).err = false
    ∧ (DialSocks5Timeout (Net.allOk [0x06, 0x01]) "example.com:443" 0 5).err
        = some SocksError.noSocks5Support := by decide

/-- C3 (amended): for every 2-byte method-selection reply whose *version byte
is 0x05* and whose method byte is not 0x00, the handshake fails with the
authentication-negotiation error reporting the expected (0x00) versus actual
method byte, and no connect-request bytes are subsequently written (the wire
carries exactly the greeting). -/
theorem C3_amended_auth_failure (b : Nat) (more : List Nat) (targetAddr : String)
    (t0 timeout : Nat) (hb : b ≠ 0x00) :
    DialSocks5Timeout (Net.allOk (5 :: b :: more)) targetAddr t0 timeout
      = ⟨none, some (.authNegotiationFailed 0x00 b),
         ⟨more, greeting, some (t0 + timeout)⟩⟩ :=
  run_authFailed b more targetAddr t0 timeout hb

/-- Witness for the amended C3 at method byte 0x02. -/
theorem C3_amended_auth_failure_witness :
    (2 : Nat) ≠ 0x00
    ∧ DialSocks5Timeout (Net.allOk [5, 2]) "example.com:443" 0 5
        = ⟨none, some (.authNegotiationFailed 0x00 2), ⟨[], greeting, some 5⟩⟩ :=
  ⟨by decide, C3_amended_auth_failure 2 [] "example.com:443" 0 5 (by decide)⟩

/-- C4: after a valid connect-reply header, the driver branches on the
address-type byte: for 0x01 it reads exactly 6 more bytes and discards them
(the run succeeds with exactly those bytes consumed, whatever they are); for
0x04 it reads exactly 18 more bytes and discards them; for every other value
it fails with the unsupported-address-type error naming that byte and reads
no further bytes (the remaining input is untouched). -/
theorem C4_address_type_branch (atyp : Nat) (rest : List Nat)
    (targetAddr host : String) (port t0 timeout : Nat)
    (hsp : splitHostPort targetAddr = Except.ok (host, port))
    (hlen : (strBytes host).length ≤ 0xFF) :
    (atyp = 0x01 → 6 ≤ rest.length →
      DialSocks5Timeout (Net.allOk (5 :: 0 :: 5 :: 0 :: 0 :: atyp :: rest))
          targetAddr t0 timeout
        = ⟨some ⟨rest.drop 6, greeting ++ connectRequest host port, some (t0 + timeout)⟩,
           none,
           ⟨rest.drop 6, greeting ++ connectRequest host port, some (t0 + timeout)⟩⟩)
    ∧ (atyp = 0x04 → 18 ≤ rest.length →
      DialSocks5Timeout (Net.allOk (5 :: 0 :: 5 :: 0 :: 0 :: atyp :: rest))
          targetAddr t0 timeout
        = ⟨some ⟨rest.drop 18, greeting ++ connectRequest host port, some (t0 + timeout)⟩,
           none,
           ⟨rest.drop 18, greeting ++ connectRequest host port, some (t0 + timeout)⟩⟩)
    ∧ (atyp ≠ 0x01 → atyp ≠ 0x04 →
      DialSocks5Timeout (Net.allOk (5 :: 0 :: 5 :: 0 :: 0 :: atyp :: rest))
          targetAddr t0 timeout
        = ⟨none, some (.unsupportedAddressType atyp),
           ⟨rest, greeting ++ connectRequest host port, some (t0 + timeout)⟩⟩) := by
  have hbase := run_to_reply 5 0 0 atyp rest targetAddr host port t0 timeout hsp hlen
  refine ⟨fun h1 h6 => ?_, fun h4 h18 => ?_, fun hn1 hn4 => ?_⟩
  · subst h1
    rw [hbase, connectReplyStep_toBound, boundAddrStep_ipv4 _ _ _ h6]
  · subst h4
    rw [hbase, connectReplyStep_toBound, boundAddrStep_ipv6 _ _ _ h18]
  · rw [hbase, connectReplyStep_toBound, boundAddrStep_other _ _ hn1 hn4]

/-- Witness for C4: IPv4 branch with six bound-address bytes, and an
unsupported address type 0x7F. -/
theorem C4_address_type_branch_witness :
    (1 : Nat) = 0x01 ∧ 6 ≤ ([9, 9, 9, 9, 8, 8] : List Nat).length
    ∧ DialSocks5Timeout (Net.allOk [5, 0, 5, 0, 0, 1, 9, 9, 9, 9, 8, 8])
        "example.com:443" 0 5
      = ⟨some ⟨[], greeting ++ connectRequest "example.com" 443, some 5⟩, none,
         ⟨[], greeting ++ connectRequest "example.com" 443, some 5⟩⟩
    ∧ (0x7F : Nat) ≠ 0x01 ∧ (0x7F : Nat) ≠ 0x04
    ∧ DialSocks5Timeout (Net.allOk [5, 0, 5, 0, 0, 0x7F]) "example.com:443" 0 5
      = ⟨none, some (.unsupportedAddressType 0x7F),
         ⟨[], greeting ++ connectRequest "example.com" 443, some 5⟩⟩ :=
  ⟨by decide, by decide,
   (C4_address_type_branch 1 [9, 9, 9, 9, 8, 8] "example.com:443" "example.com"
     443 0 5 rfl (by decide)).1 (by decide) (by decide),
   by decide, by decide,
   (C4_address_type_branch 0x7F [] "example.com:443" "example.com"
     443 0 5 rfl (by decide)).2.2 (by decide) (by decide)⟩

/-- C5: for every resolved target host, if its encoded byte length exceeds
255 the handshake fails with the host-too-long error naming the host and the
limit 255, with no connect-request bytes written (the wire carries exactly
the greeting); if its encoded length is at most 255 (including exactly 255)
the check passes and the connect request is built and written. -/
theorem C5_host_length_check (more : List Nat) (targetAddr host : String)
    (port t0 timeout : Nat)
    (hsp : splitHostPort targetAddr = Except.ok (host, port)) :
    ((strBytes host).length > 0xFF →
      DialSocks5Timeout (Net.allOk (5 :: 0 :: more)) targetAddr t0 timeout
        = ⟨none, some (.hostTooLong host 0xFF),
           ⟨more, greeting, some (t0 + timeout)⟩⟩)
    ∧ ((strBytes host).length ≤ 0xFF →
      (DialSocks5Timeout (Net.allOk (5 :: 0 :: more)) targetAddr t0 timeout).trace.written
        = greeting ++ connectRequest host port) := by
  refine ⟨fun hgt => run_hostTooLong more targetAddr host port t0 timeout hsp hgt,
    fun hle => ?_⟩
  rw [run_cons₂, methodReplyStep_five]
  exact requestStep_written_of_checks (Net.allOk (5 :: 0 :: more)) targetAddr
    ⟨more, greeting, some (t0 + timeout)⟩ host port hsp hle rfl

/-- Witness for C5: a 256-byte host is rejected before the request is
written; a 255-byte host passes the check and the request is written. -/
theorem C5_host_length_check_witness :
    (strBytes hostA256).length > 0xFF
    ∧ DialSocks5Timeout (Net.allOk [5, 0]) (hostA256 ++ ":80") 0 5
        = ⟨none, some (.hostTooLong hostA256 0xFF), ⟨[], greeting, some 5⟩⟩
    ∧ (strBytes hostA255).length ≤ 0xFF
    ∧ (DialSocks5Timeout (Net.allOk [5, 0]) (hostA255 ++ ":80") 0 5).trace.written
        = greeting ++ connectRequest hostA255 80 :=
  ⟨by decide,
   (C5_host_length_check [] (hostA256 ++ ":80") hostA256 80 0 5 rfl).1 (by decide),
   by decide,
   (C5_host_length_check [] (hostA255 ++ ":80") hostA255 80 0 5 rfl).2 (by decide)⟩

/-- C6 counterexample: with a valid reply header advertising an IPv4 bound
address but a truncated bound-address block (only 3 of the 6 bytes), the
driver returns a NON-null connection handle together with a non-null error
(the `return conn, err` at `socks.go` line 102), refuting the claim that the
connection value accompanying a non-null error is always null. -/
theorem C6_counterexample :
    (DialSocks5Timeout (Net.allOk [5, 0, 5, 0, 0, 1, 9, 9, 9])
        "example.com:443" 0 5).conn
      = some ⟨[9, 9, 9], greeting ++ connectRequest "example.com" 443, some 5⟩
    ∧ (DialSocks5Timeout (Net.allOk [5, 0, 5, 0, 0, 1, 9, 9, 9])
        "example.com:443" 0 5).err
      = some SocksError.readError := by decide

/-- C6 (amended): the result is exclusive on every failure path *except* a
failed read of the bound-address bytes.  Per path: on success the returned
handle is the live, fully negotiated connection; whenever a handle
accompanies a non-null error it is the live transport state and the error is
the read failure; a failed dial, deadline set, greeting write, method-reply
read (line 51), method-reply validation, resolve, host-length check, request
write, connect-reply read (line 81), connect-reply validation, or
address-type check all return a null connection; only a short bound-address
read (lines 96/98) universally returns the live handle together with the
read error (line 102's `return conn, err`). -/
theorem C6_amended_result_exclusive (net : Net) (targetAddr : String)
    (t0 timeout : Nat) :
    -- (1) success: the fully negotiated live handle
    ((DialSocks5Timeout net targetAddr t0 timeout).err = none →
      (DialSocks5Timeout net targetAddr t0 timeout).conn
        = some (DialSocks5Timeout net targetAddr t0 timeout).trace)
    -- (2) a handle next to an error is the live state, and the error the read failure
    ∧ (∀ c e, (DialSocks5Timeout net targetAddr t0 timeout).conn = some c →
        (DialSocks5Timeout net targetAddr t0 timeout).err = some e →
        e = SocksError.readError
          ∧ c = (DialSocks5Timeout net targetAddr t0 timeout).trace)
    -- (3) dial failure: null conn
    ∧ (net.dialOk = false →
        DialSocks5Timeout net targetAddr t0 timeout
          = ⟨none, some .dialError, ⟨net.input, [], none⟩⟩)
    -- (4) deadline-set failure: null conn
    ∧ (net.dialOk = true → net.setDeadlineOk = false →
        DialSocks5Timeout net targetAddr t0 timeout
          = ⟨none, some .deadlineError, ⟨net.input, [], none⟩⟩)
    -- (5) greeting-write failure: null conn
    ∧ (net.dialOk = true → net.setDeadlineOk = true → net.greetingWriteOk = false →
        DialSocks5Timeout net targetAddr t0 timeout
          = ⟨none, some .writeError, ⟨net.input, [], some (t0 + timeout)⟩⟩)
    -- (6) method-reply read failure (line 51): null conn
    ∧ (net.dialOk = true → net.setDeadlineOk = true → net.greetingWriteOk = true →
        net.input.length < 2 →
        DialSocks5Timeout net targetAddr t0 timeout
          = ⟨none, some .readError, ⟨net.input, greeting, some (t0 + timeout)⟩⟩)
    -- (7) method-reply version failure: null conn
    ∧ (∀ b0 b1 more, net.dialOk = true → net.setDeadlineOk = true →
        net.greetingWriteOk = true → net.input = b0 :: b1 :: more → b0 ≠ 0x05 →
        DialSocks5Timeout net targetAddr t0 timeout
          = ⟨none, some .noSocks5Support, ⟨more, greeting, some (t0 + timeout)⟩⟩)
    -- (8) method-reply auth failure: null conn
    ∧ (∀ b1 more, net.dialOk = true → net.setDeadlineOk = true →
        net.greetingWriteOk = true → net.input = 5 :: b1 :: more → b1 ≠ 0x00 →
        DialSocks5Timeout net targetAddr t0 timeout
          = ⟨none, some (.authNegotiationFailed 0x00 b1),
             ⟨more, greeting, some (t0 + timeout)⟩⟩)
    -- (9) resolver failure: null conn
    ∧ (∀ e more, net.dialOk = true → net.setDeadlineOk = true →
        net.greetingWriteOk = true → net.input = 5 :: 0 :: more →
        splitHostPort targetAddr = Except.error e →
        DialSocks5Timeout net targetAddr t0 timeout
          = ⟨none, some (.resolve e), ⟨more, greeting, some (t0 + timeout)⟩⟩)
    -- (10) host-length failure: null conn
    ∧ (∀ host port more, net.dialOk = true → net.setDeadlineOk = true →
        net.greetingWriteOk = true → net.input = 5 :: 0 :: more →
        splitHostPort targetAddr = Except.ok (host, port) →
        (strBytes host).length > 0xFF →
        DialSocks5Timeout net targetAddr t0 timeout
          = ⟨none, some (.hostTooLong host 0xFF),
             ⟨more, greeting, some (t0 + timeout)⟩⟩)
    -- (11) request-write failure: null conn
    ∧ (∀ host port more, net.dialOk = true → net.setDeadlineOk = true →
        net.greetingWriteOk = true → net.requestWriteOk = false →
        net.input = 5 :: 0 :: more →
        splitHostPort targetAddr = Except.ok (host, port) →
        (strBytes host).length ≤ 0xFF →
        DialSocks5Timeout net targetAddr t0 timeout
          = ⟨none, some .writeError, ⟨more, greeting, some (t0 + timeout)⟩⟩)
    -- (12) connect-reply read failure (line 81): null conn
    ∧ (∀ host port more, net.dialOk = true → net.setDeadlineOk = true →
        net.greetingWriteOk = true → net.requestWriteOk = true →
        net.input = 5 :: 0 :: more → more.length < 4 →
        splitHostPort targetAddr = Except.ok (host, port) →
        (strBytes host).length ≤ 0xFF →
        DialSocks5Timeout net targetAddr t0 timeout
          = ⟨none, some .readError,
             ⟨more, greeting ++ connectRequest host port, some (t0 + timeout)⟩⟩)
    -- (13) connect-reply validation failure: null conn
    ∧ (∀ host port b0 b1 b2 b3 rest, net.dialOk = true → net.setDeadlineOk = true →
        net.greetingWriteOk = true → net.requestWriteOk = true →
        net.input = 5 :: 0 :: b0 :: b1 :: b2 :: b3 :: rest →
        splitHostPort targetAddr = Except.ok (host, port) →
        (strBytes host).length ≤ 0xFF →
        ¬(b0 = 0x05 ∧ b1 = 0x00 ∧ b2 = 0x00) →
        (DialSocks5Timeout net targetAddr t0 timeout).conn = none)
    -- (14) unsupported address type: null conn
    ∧ (∀ host port atyp rest, net.dialOk = true → net.setDeadlineOk = true →
        net.greetingWriteOk = true → net.requestWriteOk = true →
        net.input = 5 :: 0 :: 5 :: 0 :: 0 :: atyp :: rest →
        splitHostPort targetAddr = Except.ok (host, port) →
        (strBytes host).length ≤ 0xFF →
        atyp ≠ 0x01 → atyp ≠ 0x04 →
        (DialSocks5Timeout net targetAddr t0 timeout).conn = none)
    -- (15) short IPv4 bound-address read: the LIVE handle with the error
    ∧ (∀ host port rest, net.dialOk = true → net.setDeadlineOk = true →
        net.greetingWriteOk = true → net.requestWriteOk = true →
        net.input = 5 :: 0 :: 5 :: 0 :: 0 :: 1 :: rest → rest.length < 6 →
        splitHostPort targetAddr = Except.ok (host, port) →
        (strBytes host).length ≤ 0xFF →
        DialSocks5Timeout net targetAddr t0 timeout
          = ⟨some ⟨rest, greeting ++ connectRequest host port, some (t0 + timeout)⟩,
             some .readError,
             ⟨rest, greeting ++ connectRequest host port, some (t0 + timeout)⟩⟩)
    -- (16) short IPv6 bound-address read: the LIVE handle with the error
    ∧ (∀ host port rest, net.dialOk = true → net.setDeadlineOk = true →
        net.greetingWriteOk = true → net.requestWriteOk = true →
        net.input = 5 :: 0 :: 5 :: 0 :: 0 :: 4 :: rest → rest.length < 18 →
        splitHostPort targetAddr = Except.ok (host, port) →
        (strBytes host).length ≤ 0xFF →
        DialSocks5Timeout net targetAddr t0 timeout
          = ⟨some ⟨rest, greeting ++ connectRequest host port, some (t0 + timeout)⟩,
             some .readError,
             ⟨rest, greeting ++ connectRequest host port, some (t0 + timeout)⟩⟩) := by
  refine ⟨run_success_conn net targetAddr t0 timeout, ?_, ?_, ?_, ?_, ?_, ?_, ?_, ?_,
    ?_, ?_, ?_, ?_, ?_, ?_, ?_⟩
  · intro c e hc he
    refine ⟨run_err_of_conn net targetAddr t0 timeout c e hc he, ?_⟩
    rcases conn_eq_trace net targetAddr t0 timeout with h | h
    · rw [h] at hc
      exact absurd hc (by simp)
    · rw [h] at hc
      exact ((Option.some.injEq _ _).mp hc).symm
  · intro h
    exact run_dialFail net targetAddr t0 timeout h
  · intro h1 h2
    exact run_deadlineFail net targetAddr t0 timeout h1 h2
  · intro h1 h2 h3
    exact run_greetingWriteFail net targetAddr t0 timeout h1 h2 h3
  · intro h1 h2 h3 hshort
    exact run_methodReadFail net targetAddr t0 timeout h1 h2 h3 hshort
  · intro b0 b1 more h1 h2 h3 hin hb
    rw [run_cons₂' net b0 b1 more targetAddr t0 timeout h1 h2 h3 hin]
    simp [methodReplyStep, Socks5Version, hb]
  · intro b1 more h1 h2 h3 hin hb
    rw [run_cons₂' net 5 b1 more targetAddr t0 timeout h1 h2 h3 hin]
    simp [methodReplyStep, Socks5Version, Socks5NoAuthentication, hb]
  · intro e more h1 h2 h3 hin hsp
    rw [run_cons₂' net 5 0 more targetAddr t0 timeout h1 h2 h3 hin, methodReplyStep_five]
    unfold requestStep
    rw [hsp]
  · intro host port more h1 h2 h3 hin hsp hlen
    rw [run_cons₂' net 5 0 more targetAddr t0 timeout h1 h2 h3 hin, methodReplyStep_five]
    unfold requestStep
    rw [hsp]
    try dsimp only
    rw [if_pos hlen]
  · intro host port more h1 h2 h3 hw hin hsp hlen
    rw [run_cons₂' net 5 0 more targetAddr t0 timeout h1 h2 h3 hin, methodReplyStep_five]
    unfold requestStep
    rw [hsp]
    try dsimp only
    rw [if_neg (by omega), if_pos hw]
  · intro host port more h1 h2 h3 hw hin hshort hsp hlen
    rw [run_cons₂' net 5 0 more targetAddr t0 timeout h1 h2 h3 hin, methodReplyStep_five]
    unfold requestStep
    rw [hsp]
    try dsimp only
    rw [if_neg (by omega), if_neg (by simp [hw])]
    try dsimp only
    rw [readFull_short more (greeting ++ connectRequest host port)
      (some (t0 + timeout)) 4 hshort]
  · intro host port b0 b1 b2 b3 rest h1 h2 h3 hw hin hsp hlen hfail
    have hbase := run_to_reply' net b0 b1 b2 b3 rest targetAddr host port t0 timeout
      h1 h2 h3 hw hin hsp hlen
    by_cases hb0 : b0 = 0x05
    · subst hb0
      by_cases hb1 : b1 = 0x00
      · subst hb1
        by_cases hb2 : b2 = 0x00
        · exact absurd ⟨rfl, rfl, hb2⟩ hfail
        · rw [hbase, connectReplyStep_badReserved _ _ _ hb2]
      · rw [hbase, connectReplyStep_refused _ _ _ _ hb1]
    · rw [hbase, connectReplyStep_badVersion _ _ _ _ _ hb0]
  · intro host port atyp rest h1 h2 h3 hw hin hsp hlen hn1 hn4
    rw [run_to_reply' net 5 0 0 atyp rest targetAddr host port t0 timeout
        h1 h2 h3 hw hin hsp hlen,
      connectReplyStep_toBound, boundAddrStep_other _ _ hn1 hn4]
  · intro host port rest h1 h2 h3 hw hin hshort hsp hlen
    rw [run_to_reply' net 5 0 0 1 rest targetAddr host port t0 timeout
        h1 h2 h3 hw hin hsp hlen,
      connectReplyStep_toBound, boundAddrStep_ipv4_short _ _ _ hshort]
  · intro host port rest h1 h2 h3 hw hin hshort hsp hlen
    rw [run_to_reply' net 5 0 0 4 rest targetAddr host port t0 timeout
        h1 h2 h3 hw hin hsp hlen,
      connectReplyStep_toBound, boundAddrStep_ipv6_short _ _ _ hshort]

/-- Witness for the amended C6: a concrete successful run returning the live
handle, and a concrete short IPv4 bound-address read universally covered by
the live-handle conjunct. -/
theorem C6_amended_result_exclusive_witness :
    (DialSocks5Timeout (Net.allOk [5, 0, 5, 0, 0, 1, 1, 2, 3, 4, 5, 6])
        "example.com:443" 0 5).err = none
    ∧ (DialSocks5Timeout (Net.allOk [5, 0, 5, 0, 0, 1, 1, 2, 3, 4, 5, 6])
        "example.com:443" 0 5).conn
      = some (DialSocks5Timeout (Net.allOk [5, 0, 5, 0, 0, 1, 1, 2, 3, 4, 5, 6])
        "example.com:443" 0 5).trace
    ∧ DialSocks5Timeout (Net.allOk [5, 0, 5, 0, 0, 1, 9, 9, 8])
        "example.com:443" 0 5
      = ⟨some ⟨[9, 9, 8], greeting ++ connectRequest "example.com" 443, some 5⟩,
         some .readError,
         ⟨[9, 9, 8], greeting ++ connectRequest "example.com" 443, some 5⟩⟩ :=
  ⟨rfl,
   (C6_amended_result_exclusive (Net.allOk [5, 0, 5, 0, 0, 1, 1, 2, 3, 4, 5, 6])
     "example.com:443" 0 5).1 rfl,
   (C6_amended_result_exclusive (Net.allOk [5, 0, 5, 0, 0, 1, 9, 9, 8])
     "example.com:443" 0 5).2.2.2.2.2.2.2.2.2.2.2.2.2.2.1 "example.com" 443
     [9, 9, 8] rfl rfl rfl rfl rfl (by decide) rfl (by decide)⟩

/-- C7: for every address string, the resolver either returns a (host, port)
pair with the port a base-10 unsigned integer in [0, 65535], or fails: a
non-numeric or out-of-range port substring fails with the invalid-port error
naming the offending text, and a malformed address fails with the
invalid-address error; on failure the driver surfaces that error unchanged.
(`net.SplitHostPort` and `strconv.ParseUint` are external collaborators,
modelled from the spec's §4.2.) -/
theorem C7_resolver_contract (addr : String) :
    (∀ host port, splitHostPort addr = Except.ok (host, port) → port ≤ 65535)
    ∧ (∀ e, specSplitHostPort addr = Except.error e →
        splitHostPort addr = Except.error e ∧ e = .invalidAddress addr)
    ∧ (∀ host portStr e, specSplitHostPort addr = Except.ok (host, portStr) →
        specParsePort portStr = Except.error e →
        splitHostPort addr = Except.error e ∧ e = .invalidPort portStr)
    ∧ (∀ e more t0 timeout, splitHostPort addr = Except.error e →
        (DialSocks5Timeout (Net.allOk (5 :: 0 :: more)) addr t0 timeout).err
          = some (.resolve e)) :=
  ⟨fun host port h => splitHostPort_port_le addr host port h,
   fun e h =>
     ⟨by unfold splitHostPort; rw [h], specSplitHostPort_error addr e h⟩,
   fun host portStr e hs hp => splitHostPort_error_of_parse addr host portStr e hs hp,
   fun e more t0 timeout h => by
     rw [run_resolve_error more addr e t0 timeout h]⟩

/-- Witness for C7: an in-range port, an out-of-range port classified as
invalid-port naming its text, and the driver surfacing it unchanged. -/
theorem C7_resolver_contract_witness :
    splitHostPort "example.com:443" = Except.ok ("example.com", 443)
    ∧ (443 : Nat) ≤ 65535
    ∧ splitHostPort "example.com:70000" = Except.error (.invalidPort "70000")
    ∧ (DialSocks5Timeout (Net.allOk [5, 0]) "example.com:70000" 0 5).err
        = some (.resolve (.invalidPort "70000")) :=
  ⟨rfl,
   (C7_resolver_contract "example.com:443").1 "example.com" 443 rfl,
   ((C7_resolver_contract "example.com:70000").2.2.1 "example.com" "70000"
     (.invalidPort "70000") rfl rfl).1,
   (C7_resolver_contract "example.com:70000").2.2.2 (.invalidPort "70000")
     [] 0 5 rfl⟩

/-- C8: the connection's absolute deadline is `t0 + timeout` where `t0` is
the time recorded before the transport connect began — not the later current
time `t0 + dialElapsed` — and on success the connection is returned with that
deadline still in place. -/
theorem C8_deadline_from_t0 (net : Net) (targetAddr : String) (t0 timeout : Nat)
    (hsucc : (DialSocks5Timeout net targetAddr t0 timeout).err = none) :
    ∃ c, (DialSocks5Timeout net targetAddr t0 timeout).conn = some c
      ∧ c.deadline = some (t0 + timeout)
      ∧ (0 < net.dialElapsed →
          c.deadline ≠ some (t0 + net.dialElapsed + timeout)) := by
  refine ⟨(DialSocks5Timeout net targetAddr t0 timeout).trace,
    run_success_conn net targetAddr t0 timeout hsucc, ?_, ?_⟩
  · exact run_success_deadline net targetAddr t0 timeout hsucc
  · intro hd
    rw [run_success_deadline net targetAddr t0 timeout hsucc]
    intro hEq
    simp only [Option.some.injEq] at hEq
    omega

/-- Witness for C8 with a dial that consumed 3 time units. -/
theorem C8_deadline_from_t0_witness :
    (DialSocks5Timeout ⟨true, true, true, true, 3, [5, 0, 5, 0, 0, 1, 0, 0, 0, 0, 0, 0]⟩
        "example.com:443" 10 7).err = none
    ∧ ∃ c, (DialSocks5Timeout ⟨true, true, true, true, 3, [5, 0, 5, 0, 0, 1, 0, 0, 0, 0, 0, 0]⟩
        "example.com:443" 10 7).conn = some c
      ∧ c.deadline = some (10 + 7)
      ∧ (0 < (3 : Nat) →
          c.deadline ≠ some (10 + 3 + 7)) :=
  ⟨rfl,
   C8_deadline_from_t0 ⟨true, true, true, true, 3, [5, 0, 5, 0, 0, 1, 0, 0, 0, 0, 0, 0]⟩
     "example.com:443" 10 7 rfl⟩

/-- C9 counterexample: the error raised when the method-selection reply's
version byte is not 0x05 does NOT include the offending byte value: runs with
offending bytes 0x06 and 0x07 produce the identical constant error. -/
theorem C9_counterexample :
    (DialSocks5Timeout (Net.allOk [0x06, 0x00]) "example.com:443" 0 5).err
      = (DialSocks5Timeout (Net.allOk [0x07, 0x00]) "example.com:443" 0 5).err
    ∧ (DialSocks5Timeout (Net.allOk [0x06, 0x00]) "example.com:443" 0 5).err
      = some SocksError.noSocks5Support := by decide

/-- C9 (amended): every validation failure carries the offending byte value,
field, or text, *except* the method-reply version check, which fails with a
constant error naming no byte: the auth-method failure carries the expected
and actual method byte, and each connect-reply validation failure carries the
offending byte. -/
theorem C9_amended_error_context (targetAddr host : String) (port t0 timeout : Nat)
    (hsp : splitHostPort targetAddr = Except.ok (host, port))
    (hlen : (strBytes host).length ≤ 0xFF) :
    (∀ b0 b1 more, b0 ≠ 0x05 →
      (DialSocks5Timeout (Net.allOk (b0 :: b1 :: more)) targetAddr t0 timeout).err
        = some SocksError.noSocks5Support)
    ∧ (∀ b more, b ≠ 0x00 →
      (DialSocks5Timeout (Net.allOk (5 :: b :: more)) targetAddr t0 timeout).err
        = some (.authNegotiationFailed 0x00 b))
    ∧ (∀ b0 b1 b2 b3 rest, b0 ≠ 0x05 →
      (DialSocks5Timeout (Net.allOk (5 :: 0 :: b0 :: b1 :: b2 :: b3 :: rest))
          targetAddr t0 timeout).err = some (.badVersion b0))
    ∧ (∀ b1 b2 b3 rest, b1 ≠ 0x00 →
      (DialSocks5Timeout (Net.allOk (5 :: 0 :: 5 :: b1 :: b2 :: b3 :: rest))
          targetAddr t0 timeout).err = some (.connectRefused b1))
    ∧ (∀ b2 b3 rest, b2 ≠ 0x00 →
      (DialSocks5Timeout (Net.allOk (5 :: 0 :: 5 :: 0 :: b2 :: b3 :: rest))
          targetAddr t0 timeout).err = some (.badReserved b2))
    ∧ (∀ atyp rest, atyp ≠ 0x01 → atyp ≠ 0x04 →
      (DialSocks5Timeout (Net.allOk (5 :: 0 :: 5 :: 0 :: 0 :: atyp :: rest))
          targetAddr t0 timeout).err = some (.unsupportedAddressType atyp)) := by
  refine ⟨?_, ?_, ?_, ?_, ?_, ?_⟩
  · intro b0 b1 more h
    rw [run_noSocks5 b0 b1 more targetAddr t0 timeout h]
  · intro b more h
    rw [run_authFailed b more targetAddr t0 timeout h]
  · intro b0 b1 b2 b3 rest h
    rw [run_to_reply b0 b1 b2 b3 rest targetAddr host port t0 timeout hsp hlen,
      connectReplyStep_badVersion _ _ _ _ _ h]
  · intro b1 b2 b3 rest h
    rw [run_to_reply 5 b1 b2 b3 rest targetAddr host port t0 timeout hsp hlen,
      connectReplyStep_refused _ _ _ _ h]
  · intro b2 b3 rest h
    rw [run_to_reply 5 0 b2 b3 rest targetAddr host port t0 timeout hsp hlen,
      connectReplyStep_badReserved _ _ _ h]
  · intro atyp rest h1 h4
    rw [run_to_reply 5 0 0 atyp rest targetAddr host port t0 timeout hsp hlen,
      connectReplyStep_toBound, boundAddrStep_other _ _ h1 h4]

/-- Witness for the amended C9: the constant version error and a refused
status byte 0x09 carried in the error. -/
theorem C9_amended_error_context_witness :
    splitHostPort "example.com:443" = Except.ok ("example.com", 443)
    ∧ (strBytes "example.com").length ≤ 0xFF
    ∧ (DialSocks5Timeout (Net.allOk [6, 0]) "example.com:443" 0 5).err
        = some SocksError.noSocks5Support
    ∧ (DialSocks5Timeout (Net.allOk [5, 0, 5, 9, 0, 1]) "example.com:443" 0 5).err
        = some (.connectRefused 9) :=
  ⟨rfl, by decide,
   (C9_amended_error_context "example.com:443" "example.com" 443 0 5 rfl
     (by decide)).1 6 0 [] (by decide),
   (C9_amended_error_context "example.com:443" "example.com" 443 0 5 rfl
     (by decide)).2.2.2.1 9 0 1 [] (by decide)⟩

/-- C10: for every target address that is malformed, has an invalid port, or
has an over-long host, the driver nevertheless first dials, sets the
deadline, writes the greeting, and reads and validates the method-selection
reply — the target-address error surfaces only after that exchange succeeds
(the failing trace shows the greeting written, both reply bytes consumed and
the deadline set); when method negotiation fails, the negotiation error is
returned regardless of the target address, so the address is never parsed
before negotiation completes. -/
theorem C10_resolve_after_negotiation (targetAddr : String) (t0 timeout : Nat) :
    (∀ e more, splitHostPort targetAddr = Except.error e →
      DialSocks5Timeout (Net.allOk (5 :: 0 :: more)) targetAddr t0 timeout
        = ⟨none, some (.resolve e), ⟨more, greeting, some (t0 + timeout)⟩⟩)
    ∧ (∀ host port more, splitHostPort targetAddr = Except.ok (host, port) →
        (strBytes host).length > 0xFF →
        DialSocks5Timeout (Net.allOk (5 :: 0 :: more)) targetAddr t0 timeout
          = ⟨none, some (.hostTooLong host 0xFF),
             ⟨more, greeting, some (t0 + timeout)⟩⟩)
    ∧ (∀ b0 b1 more, b0 ≠ 0x05 →
        (DialSocks5Timeout (Net.allOk (b0 :: b1 :: more)) targetAddr t0 timeout).err
          = some SocksError.noSocks5Support)
    ∧ (∀ b more, b ≠ 0x00 →
        (DialSocks5Timeout (Net.allOk (5 :: b :: more)) targetAddr t0 timeout).err
          = some (.authNegotiationFailed 0x00 b)) := by
  refine ⟨?_, ?_, ?_, ?_⟩
  · intro e more h
    exact run_resolve_error more targetAddr e t0 timeout h
  · intro host port more hsp hlen
    exact run_hostTooLong more targetAddr host port t0 timeout hsp hlen
  · intro b0 b1 more h
    rw [run_noSocks5 b0 b1 more targetAddr t0 timeout h]
  · intro b more h
    rw [run_authFailed b more targetAddr t0 timeout h]

/-- Witness for C10: a separator-less address still gets the full method
exchange before its error surfaces, and a failed negotiation hides it. -/
theorem C10_resolve_after_negotiation_witness :
    splitHostPort "nocolon" = Except.error (.invalidAddress "nocolon")
    ∧ DialSocks5Timeout (Net.allOk [5, 0]) "nocolon" 0 5
        = ⟨none, some (.resolve (.invalidAddress "nocolon")), ⟨[], greeting, some 5⟩⟩
    ∧ (6 : Nat) ≠ 0x05
    ∧ (DialSocks5Timeout (Net.allOk [6, 0]) "nocolon" 0 5).err
        = some SocksError.noSocks5Support :=
  ⟨rfl,
   (C10_resolve_after_negotiation "nocolon" 0 5).1 (.invalidAddress "nocolon") [] rfl,
   by decide,
   (C10_resolve_after_negotiation "nocolon" 0 5).2.2.1 6 0 [] (by decide)⟩

end Socks
